import Mathlib

/-!
Verification development for the credential vault of the zoho-payment
repository (`src/zoho-cred-manager.py`).

The Python module is shallowly embedded as follows.

* Bytes are `List Nat`.
* A `CredentialSet` (a Python `dict` with string keys and values) is an
  association list `List (String × String)` with the insertion-ordered
  update semantics of Python dicts (`dictInsert` / `dictUpdate`).
* The process state visible to the vault is `VaultState`: the contents of
  the `config.enc` file, of the `salt` file, and of the system keyring
  entry `(service = app_name, account = "config_key")`.  `none` means the
  file / entry is absent.
* Python exceptions relevant to the module are the inductive `PyErr`:
  `fileNotFound` (`FileNotFoundError`, the spec's VaultFileMissing),
  `valueError` (the `ValueError` raised by `_get_encryption_key`, the
  spec's KeyNotFound), `invalidToken` (`cryptography.fernet.InvalidToken`,
  the spec's DecryptionFailed), `jsonDecodeError` (`json.JSONDecodeError`),
  and `passwordDeleteError` (`keyring.errors.PasswordDeleteError`, raised
  by `keyring.delete_password` when the entry is absent, per the keyring
  API contract).
* The external Fernet cipher is modelled by the structure `AE`
  (deterministic functional abstraction of `Fernet(key).encrypt` /
  `Fernet(key).decrypt`, where `decrypt` returns `none` exactly when the
  real call raises `InvalidToken`).  Theorems that need the cipher's
  round-trip or authentication guarantees take them as explicit
  hypotheses (`AE.Correct`, `AE.Authentic`); the executable instance
  `toyAE` (an unkeyed-MAC-style checksum scheme) discharges them in the
  witnesses.
* The external PBKDF2-HMAC-SHA256 primitive is an abstract parameter of
  type `KDF`, taking the output length, the salt, the iteration count and
  the password, exactly the data `_generate_key` passes to `PBKDF2HMAC`.
  `b64encode` is a concrete implementation of standard base64 (what
  Python's `base64.b64encode` computes), returning the encoded text.
* `json.dumps` / `json.loads` on string-to-string dicts are modelled by
  the concrete injective length-prefixed serializer `dumps` with partial
  inverse `loads` (`loads` returns `none` exactly where `json.loads`
  raises).
* Stateful methods return the new `VaultState` paired with `Option PyErr`
  (the raised exception, if any); side effects performed before an
  exception is raised are visible in the returned state, matching
  Python's behaviour.  Read-only methods return `Except PyErr`.
* Interactive input (`getpass` / `input`) is modelled by the explicit
  record `SetupInputs`; the fresh randomness of `os.urandom(16)` is an
  explicit argument.
-/

namespace ZohoVault

abbrev Bytes := List Nat

abbrev Creds := List (String × String)

/-- The standard base64 alphabet, as used by Python's `base64.b64encode`. -/
def b64Alphabet : List Char :=
  "ABCDEFGHIJKLMNOPQRSTUVWXYZabcdefghijklmnopqrstuvwxyz0123456789+/".data

/-- Character of the base64 alphabet at index `n` (n < 64 in all uses). -/
def b64char (n : Nat) : Char :=
  b64Alphabet.getD n 'A'

/-- Core of standard base64: encode bytes three at a time, padding with
`=` as usual. -/
def b64encodeAux : List Nat → List Char
  | a :: b :: c :: rest =>
      b64char (a / 4) :: b64char ((a % 4) * 16 + b / 16) ::
      b64char ((b % 16) * 4 + c / 64) :: b64char (c % 64) :: b64encodeAux rest
  | [a, b] =>
      [b64char (a / 4), b64char ((a % 4) * 16 + b / 16), b64char ((b % 16) * 4), '=']
  | [a] =>
      [b64char (a / 4), b64char ((a % 4) * 16), '=', '=']
  | [] => []

/-- Model of `base64.b64encode(...).decode()`: the base64 text of a byte
string (the encoded bytes are ASCII, so we return the text directly). -/
def b64encode (bs : Bytes) : String :=
  String.mk (b64encodeAux bs)

/-- Length-prefixed encoding of one string (model building block for
`json.dumps`). -/
def encodeStr (s : String) : Bytes :=
  s.data.length :: s.data.map Char.toNat

/-- Partial inverse of `encodeStr`: decode one length-prefixed string,
returning it together with the remaining bytes. -/
def decodeStr : Bytes → Option (String × Bytes)
  | [] => none
  | n :: rest =>
      if n ≤ rest.length then
        some (String.mk ((rest.take n).map Char.ofNat), rest.drop n)
      else none

/-- Encoding of one key/value pair. -/
def encodePair (p : String × String) : Bytes :=
  encodeStr p.1 ++ encodeStr p.2

/-- Model of `json.dumps` on a string-to-string dict: an injective,
deterministic serialization of the association list to bytes. -/
def dumps (creds : Creds) : Bytes :=
  creds.length :: (creds.map encodePair).flatten

/-- Decode `n` key/value pairs, requiring the input to be consumed
exactly. -/
def decodePairs : Nat → Bytes → Option Creds
  | 0, [] => some []
  | 0, _ :: _ => none
  | n + 1, bs =>
      match decodeStr bs with
      | none => none
      | some (k, bs1) =>
          match decodeStr bs1 with
          | none => none
          | some (v, bs2) =>
              match decodePairs n bs2 with
              | none => none
              | some rest => some ((k, v) :: rest)

/-- Model of `json.loads` on the vault plaintext: partial inverse of
`dumps`, `none` where `json.loads` would raise `JSONDecodeError`. -/
def loads (bs : Bytes) : Option Creds :=
  match bs with
  | [] => none
  | n :: rest => decodePairs n rest

/-- Python `d[k] = v` on an insertion-ordered dict represented as an
association list: overwrite the (first) binding of `k` in place, else
append. -/
def dictInsert : Creds → String → String → Creds
  | [], k, v => [(k, v)]
  | p :: rest, k, v =>
      if p.1 = k then (k, v) :: rest else p :: dictInsert rest k v

/-- Python `current.update(new)`: fold `dictInsert` over the items of
`new` in order. -/
def dictUpdate (current new : Creds) : Creds :=
  new.foldl (fun acc p => dictInsert acc p.1 p.2) current

/-- Python `d.get(k)` on the association-list dict model. -/
def dictGet (d : Creds) (q : String) : Option String :=
  (d.find? (fun p => p.1 == q)).map Prod.snd

/-- Functional abstraction of the Fernet authenticated cipher: `encrypt`
never fails; `decrypt` returns `none` exactly when Fernet raises
`InvalidToken`. -/
structure AE where
  encrypt : String → Bytes → Bytes
  decrypt : String → Bytes → Option Bytes

/-- Decryption inverts encryption under the same key (Fernet's functional
correctness). -/
def AE.Correct (ae : AE) : Prop :=
  ∀ k m, ae.decrypt k (ae.encrypt k m) = some m

/-- Only genuine ciphertexts decrypt: authenticated encryption rejects
everything that was not produced by `encrypt` under the same key. -/
def AE.Authentic (ae : AE) : Prop :=
  ∀ k c m, ae.decrypt k c = some m → ae.encrypt k m = c

/-- Sum of the character codes of a string (key digest of the toy
cipher). -/
def strSum (k : String) : Nat :=
  (k.data.map Char.toNat).sum

/-- Toy authenticated encryption used to instantiate witnesses: append a
key-dependent checksum byte. -/
def toyEncrypt (k : String) (m : Bytes) : Bytes :=
  m ++ [(strSum k + m.sum) % 256]

/-- Toy decryption: strip the checksum byte and verify it. -/
def toyDecrypt (k : String) (c : Bytes) : Option Bytes :=
  match c.reverse with
  | [] => none
  | t :: rm =>
      if (strSum k + rm.reverse.sum) % 256 = t then some rm.reverse else none

/-- The toy cipher packaged as an `AE`. -/
def toyAE : AE :=
  ⟨toyEncrypt, toyDecrypt⟩

/-- Python exceptions the credential-manager module can raise. -/
inductive PyErr
  | fileNotFound
  | valueError
  | invalidToken
  | jsonDecodeError
  | passwordDeleteError
deriving DecidableEq, Repr

/-- The process-visible state of the vault: contents of
`~/.config/<app>/config.enc`, of `~/.config/<app>/salt`, and of the
keyring entry; `none` means absent. -/
structure VaultState where
  configFile : Option Bytes
  saltFile : Option Bytes
  keyringKey : Option String
deriving DecidableEq, Repr

/-- Abstract PBKDF2-HMAC-SHA256 primitive: arguments are output length,
salt, iteration count, password. -/
abbrev KDF := Nat → Bytes → Nat → String → Bytes

/-- Embedding of `CredentialManager._generate_key`: derive 32 bytes with
PBKDF2-HMAC-SHA256 at 480000 iterations over the given salt (or the
fresh random salt when none is given) and base64-encode the result. -/
def generate_key (pb : KDF) (password : String) (salt : Option Bytes)
    (freshSalt : Bytes) : String × Bytes :=
  let saltUsed := salt.getD freshSalt
  (b64encode (pb 32 saltUsed 480000 password), saltUsed)

/-- Embedding of `CredentialManager._get_encryption_key`: read the
keyring entry; `if not key` (absent or empty) raise `ValueError`. -/
def get_encryption_key (s : VaultState) : Except PyErr String :=
  match s.keyringKey with
  | none => Except.error PyErr.valueError
  | some k => if k = "" then Except.error PyErr.valueError else Except.ok k

/-- Embedding of `CredentialManager.initialize_credentials` with an
explicit password (the path exercised by `setup_credentials`): derive a
fresh (key, salt), write the salt file, store the key in the keyring. -/
def initialize_credentials (pb : KDF) (s : VaultState) (password : String)
    (freshSalt : Bytes) : VaultState :=
  let ks := generate_key pb password none freshSalt
  { s with saltFile := some ks.2, keyringKey := some ks.1 }

/-- Embedding of `CredentialManager.store_credentials`: fetch the key,
encrypt `json.dumps(credentials)`, write the ciphertext to
`config.enc`. -/
def store_credentials (ae : AE) (s : VaultState) (credentials : Creds) :
    VaultState × Option PyErr :=
  match get_encryption_key s with
  | Except.error e => (s, some e)
  | Except.ok key =>
      ({ s with configFile := some (ae.encrypt key (dumps credentials)) }, none)

/-- Embedding of `CredentialManager.load_credentials`: check the config
file exists, fetch the key, read the file, decrypt, `json.loads`. -/
def load_credentials (ae : AE) (s : VaultState) : Except PyErr Creds :=
  match s.configFile with
  | none => Except.error PyErr.fileNotFound
  | some data =>
      match get_encryption_key s with
      | Except.error e => Except.error e
      | Except.ok key =>
          match ae.decrypt key data with
          | none => Except.error PyErr.invalidToken
          | some plain =>
              match loads plain with
              | none => Except.error PyErr.jsonDecodeError
              | some creds => Except.ok creds

/-- Embedding of `CredentialManager.update_credentials`: load, merge the
new items over the current dict, store; on `FileNotFoundError` from
`load`, store the new items directly; re-raise anything else. -/
def update_credentials (ae : AE) (s : VaultState) (newCreds : Creds) :
    VaultState × Option PyErr :=
  match load_credentials ae s with
  | Except.ok current => store_credentials ae s (dictUpdate current newCreds)
  | Except.error PyErr.fileNotFound => store_credentials ae s newCreds
  | Except.error e => (s, some e)

/-- Embedding of `CredentialManager.delete_credentials`: unlink the
config and salt files if present, then `keyring.delete_password`, which
raises `PasswordDeleteError` when the entry is absent; the broad
`except` block logs and re-raises, so the file deletions persist while
the exception propagates. -/
def delete_credentials (s : VaultState) : VaultState × Option PyErr :=
  match s.keyringKey with
  | none =>
      ({ configFile := none, saltFile := none, keyringKey := none },
       some PyErr.passwordDeleteError)
  | some _ =>
      ({ configFile := none, saltFile := none, keyringKey := none }, none)

/-- The interactive inputs consumed by `setup_credentials`, plus the
fresh randomness drawn by `os.urandom(16)` inside `_generate_key`. -/
structure SetupInputs where
  password : String
  confirm : String
  organization_id : String
  client_id : String
  client_secret : String
  refresh_token : String
  default_customer : String
  freshSalt : Bytes

/-- The credential dict `setup_credentials` builds from its prompts: the
four required fields, plus `default_customer_id` when that input is
non-empty (Python truthiness of the string). -/
def setupCreds (inp : SetupInputs) : Creds :=
  let base : Creds :=
    [("organization_id", inp.organization_id), ("client_id", inp.client_id),
     ("client_secret", inp.client_secret), ("refresh_token", inp.refresh_token)]
  if inp.default_customer = "" then base
  else base ++ [("default_customer_id", inp.default_customer)]

/-- Embedding of the module-level `setup_credentials`: if the two
passphrase prompts disagree, print and return `None` without touching
any state; otherwise `initialize_credentials` then `store_credentials`,
returning the stored dict. -/
def setup_credentials (pb : KDF) (ae : AE) (s : VaultState)
    (inp : SetupInputs) : VaultState × Option PyErr × Option Creds :=
  if inp.password ≠ inp.confirm then (s, none, none)
  else
    let s1 := initialize_credentials pb s inp.password inp.freshSalt
    let res := store_credentials ae s1 (setupCreds inp)
    match res.2 with
    | none => (res.1, none, some (setupCreds inp))
    | some e => (res.1, some e, none)

/-- Embedding of the module-level `get_zoho_credentials`: try
`load_credentials`; on `FileNotFoundError` run `setup_credentials` and
return its result (possibly `None`); re-raise any other exception. -/
def get_zoho_credentials (pb : KDF) (ae : AE) (s : VaultState)
    (inp : SetupInputs) : VaultState × Except PyErr (Option Creds) :=
  match load_credentials ae s with
  | Except.ok creds => (s, Except.ok (some creds))
  | Except.error PyErr.fileNotFound =>
      match setup_credentials pb ae s inp with
      | (s1, none, r) => (s1, Except.ok r)
      | (s1, some e, _) => (s1, Except.error e)
  | Except.error e => (s, Except.error e)

/-- Toy KDF used to instantiate witnesses. -/
def toyKdf : KDF :=
  fun len salt iters pw => List.replicate len ((salt.sum + iters + strSum pw) % 256)

/-- The state produced by a successful interactive bootstrap: fresh salt
on disk, fresh derived key in the keyring, and the encrypted credential
dict in `config.enc`. -/
def bootstrapState (pb : KDF) (ae : AE) (inp : SetupInputs) : VaultState :=
  { configFile := some (ae.encrypt (b64encode (pb 32 inp.freshSalt 480000 inp.password))
      (dumps (setupCreds inp))),
    saltFile := some inp.freshSalt,
    keyringKey := some (b64encode (pb 32 inp.freshSalt 480000 inp.password)) }

/-- Concrete well-formed interactive input (matching passphrases), used
in witnesses. -/
def inpW : SetupInputs :=
  ⟨"pw", "pw", "org", "cid", "sec", "tok", "", [7]⟩

/-- Concrete interactive input whose two passphrase prompts disagree,
used in witnesses. -/
def inpBad : SetupInputs :=
  ⟨"pw", "qw", "org", "cid", "sec", "tok", "", [7]⟩

/-! ### Serialization round-trip -/

theorem decodeStr_encodeStr (s : String) (t : Bytes) :
    decodeStr (encodeStr s ++ t) = some (s, t) := by
  simp only [encodeStr, List.cons_append, decodeStr]
  rw [if_pos (by simp), List.take_left' (by simp), List.drop_left' (by simp)]
  simp [List.map_map, Function.comp_def]

theorem decodePairs_encode (l : Creds) :
    decodePairs l.length (l.map encodePair).flatten = some l := by
  induction l with
  | nil => rfl
  | cons p rest ih =>
      simp only [List.map_cons, List.flatten_cons, List.length_cons, decodePairs,
        encodePair, List.append_assoc, decodeStr_encodeStr, ih]

theorem loads_dumps (l : Creds) : loads (dumps l) = some l := by
  simpa [loads, dumps] using decodePairs_encode l

/-! ### Dict (association list) lemmas -/

theorem dictGet_cons (k v : String) (d : Creds) (q : String) :
    dictGet ((k, v) :: d) q = if k = q then some v else dictGet d q := by
  by_cases h : k = q
  · simp [dictGet, List.find?, h]
  · have hb : (k == q) = false := by simp [h]
    simp [dictGet, List.find?, hb, h]

theorem dictGet_eq_none (d : Creds) (q : String) (h : q ∉ d.map Prod.fst) :
    dictGet d q = none := by
  induction d with
  | nil => rfl
  | cons p rest ih =>
      obtain ⟨k, v⟩ := p
      simp only [List.map_cons, List.mem_cons] at h
      push_neg at h
      rw [dictGet_cons, if_neg (fun hh => h.1 hh.symm)]
      exact ih h.2

theorem dictGet_insert_self (d : Creds) (k v : String) :
    dictGet (dictInsert d k v) k = some v := by
  induction d with
  | nil => simp [dictInsert, dictGet_cons]
  | cons p rest ih =>
      obtain ⟨a, b⟩ := p
      by_cases h : a = k
      · simp [dictInsert, h, dictGet_cons]
      · simp [dictInsert, h, dictGet_cons, ih]

theorem dictGet_insert_ne (d : Creds) (k v q : String) (h : q ≠ k) :
    dictGet (dictInsert d k v) q = dictGet d q := by
  induction d with
  | nil =>
      show dictGet [(k, v)] q = dictGet [] q
      rw [dictGet_cons, if_neg (Ne.symm h)]
  | cons p rest ih =>
      obtain ⟨a, b⟩ := p
      show dictGet (if a = k then (k, v) :: rest else (a, b) :: dictInsert rest k v) q
        = dictGet ((a, b) :: rest) q
      by_cases ha : a = k
      · rw [if_pos ha, dictGet_cons, dictGet_cons, if_neg (Ne.symm h), ha,
          if_neg (Ne.symm h)]
      · rw [if_neg ha, dictGet_cons, dictGet_cons, ih]

theorem dictGet_update_none (P : Creds) :
    ∀ (C : Creds) (q : String), dictGet P q = none →
      dictGet (dictUpdate C P) q = dictGet C q := by
  induction P with
  | nil => intro C q _; rfl
  | cons p rest ih =>
      intro C q h
      obtain ⟨k, v⟩ := p
      rw [dictGet_cons] at h
      by_cases hk : k = q
      · rw [if_pos hk] at h; exact absurd h (by simp)
      · rw [if_neg hk] at h
        show dictGet (dictUpdate (dictInsert C k v) rest) q = _
        rw [ih _ _ h, dictGet_insert_ne _ _ _ _ (fun hh => hk hh.symm)]

theorem dictGet_update_some (P : Creds) :
    ∀ (C : Creds) (q v : String), (P.map Prod.fst).Nodup →
      dictGet P q = some v → dictGet (dictUpdate C P) q = some v := by
  induction P with
  | nil => intro C q v _ h; simp [dictGet, List.find?] at h
  | cons p rest ih =>
      intro C q v hn h
      obtain ⟨k, w⟩ := p
      simp only [List.map_cons, List.nodup_cons] at hn
      rw [dictGet_cons] at h
      by_cases hk : k = q
      · rw [if_pos hk] at h
        injection h with h
        subst hk
        subst h
        have hrest : dictGet rest k = none :=
          dictGet_eq_none _ _ hn.1
        show dictGet (dictUpdate (dictInsert C k w) rest) k = some w
        rw [dictGet_update_none _ _ _ hrest, dictGet_insert_self]
      · rw [if_neg hk] at h
        exact ih _ _ _ hn.2 h

/-! ### Toy cipher lemmas (used to discharge hypotheses in witnesses) -/

theorem toyAE_correct : AE.Correct toyAE := by
  intro k m
  simp [toyAE, toyEncrypt, toyDecrypt, List.reverse_append]

theorem toyAE_authentic : AE.Authentic toyAE := by
  intro k c m h
  simp only [toyAE, toyDecrypt] at h
  rcases hc : c.reverse with _ | ⟨t, rm⟩
  · rw [hc] at h
    have h' : (none : Option Bytes) = some m := h
    exact absurd h' (by simp)
  · rw [hc] at h
    have h' : (if (strSum k + rm.reverse.sum) % 256 = t then some rm.reverse else none)
        = some m := h
    by_cases hcheck : (strSum k + rm.reverse.sum) % 256 = t
    · rw [if_pos hcheck] at h'
      injection h' with h'
      subst h'
      show toyEncrypt k rm.reverse = c
      have hcc : c = rm.reverse ++ [t] := by
        rw [← List.reverse_reverse c, hc, List.reverse_cons]
      rw [hcc, toyEncrypt, hcheck]
    · rw [if_neg hcheck] at h'
      exact absurd h' (by simp)

/-! ### Vault operation helper lemmas -/

theorem get_encryption_key_ok (s : VaultState) (k : String)
    (hk : s.keyringKey = some k) (hne : k ≠ "") :
    get_encryption_key s = Except.ok k := by
  simp [get_encryption_key, hk, hne]

theorem store_credentials_eq (ae : AE) (s : VaultState) (k : String)
    (hk : s.keyringKey = some k) (hne : k ≠ "") (creds : Creds) :
    store_credentials ae s creds =
      ({ s with configFile := some (ae.encrypt k (dumps creds)) }, none) := by
  simp [store_credentials, get_encryption_key_ok s k hk hne]

theorem load_credentials_ok (ae : AE) (hc : AE.Correct ae) (s : VaultState) (k : String)
    (hk : s.keyringKey = some k) (hne : k ≠ "") (creds : Creds)
    (hcf : s.configFile = some (ae.encrypt k (dumps creds))) :
    load_credentials ae s = Except.ok creds := by
  simp [load_credentials, hcf, get_encryption_key_ok s k hk hne, hc k (dumps creds),
    loads_dumps]

theorem setup_credentials_eq (pb : KDF) (ae : AE) (s : VaultState) (inp : SetupInputs)
    (hmatch : inp.password = inp.confirm)
    (hkey : b64encode (pb 32 inp.freshSalt 480000 inp.password) ≠ "") :
    setup_credentials pb ae s inp =
      (bootstrapState pb ae inp, none, some (setupCreds inp)) := by
  have h2 := store_credentials_eq ae
    { s with saltFile := some inp.freshSalt,
             keyringKey := some (b64encode (pb 32 inp.freshSalt 480000 inp.password)) }
    (b64encode (pb 32 inp.freshSalt 480000 inp.password)) rfl hkey (setupCreds inp)
  have h1 : initialize_credentials pb s inp.password inp.freshSalt =
      { s with saltFile := some inp.freshSalt,
               keyringKey := some (b64encode (pb 32 inp.freshSalt 480000 inp.password)) } :=
    rfl
  simp only [setup_credentials]
  rw [if_neg (not_not_intro hmatch), h1, h2]
  rfl

theorem get_zoho_bootstrap (pb : KDF) (ae : AE) (s : VaultState) (inp : SetupInputs)
    (hmiss : s.configFile = none) (hmatch : inp.password = inp.confirm)
    (hkey : b64encode (pb 32 inp.freshSalt 480000 inp.password) ≠ "") :
    get_zoho_credentials pb ae s inp =
      (bootstrapState pb ae inp, Except.ok (some (setupCreds inp))) := by
  simp [get_zoho_credentials, load_credentials, hmiss,
    setup_credentials_eq pb ae s inp hmatch hkey]

theorem load_bootstrapState (pb : KDF) (ae : AE) (hc : AE.Correct ae) (inp : SetupInputs)
    (hkey : b64encode (pb 32 inp.freshSalt 480000 inp.password) ≠ "") :
    load_credentials ae (bootstrapState pb ae inp) = Except.ok (setupCreds inp) :=
  load_credentials_ok ae hc _ _ rfl hkey _ rfl

theorem load_error_of_configFile_none (ae : AE) (s : VaultState)
    (h : s.configFile = none) :
    load_credentials ae s = Except.error PyErr.fileNotFound := by
  simp [load_credentials, h]

theorem get_zoho_propagates (pb : KDF) (ae : AE) (s : VaultState) (inp : SetupInputs)
    (e : PyErr) (he : e ≠ PyErr.fileNotFound)
    (h : load_credentials ae s = Except.error e) :
    get_zoho_credentials pb ae s inp = (s, Except.error e) := by
  unfold get_zoho_credentials
  rw [h]
  cases e
  · exact absurd rfl he
  all_goals rfl

theorem load_credentials_ok_inv (ae : AE) (s : VaultState) (creds : Creds)
    (h : load_credentials ae s = Except.ok creds) :
    ∃ k c plain, s.keyringKey = some k ∧ s.configFile = some c ∧
      ae.decrypt k c = some plain ∧ loads plain = some creds := by
  obtain ⟨cf, sf, kk⟩ := s
  rcases cf with _ | c
  · simp [load_credentials] at h
  rcases kk with _ | k
  · simp [load_credentials, get_encryption_key] at h
  by_cases hne : k = ""
  · simp [load_credentials, get_encryption_key, hne] at h
  rcases hd : ae.decrypt k c with _ | plain
  · simp [load_credentials, get_encryption_key, hne, hd] at h
  rcases hl : loads plain with _ | creds1
  · simp [load_credentials, get_encryption_key, hne, hd, hl] at h
  · simp [load_credentials, get_encryption_key, hne, hd, hl] at h
    exact ⟨k, c, plain, rfl, rfl, hd, by rw [hl, h]⟩

/-! ### Claim theorems -/

/-- C1: Round-trip — in every state whose SecretStore holds a key (the
keyring entry is present and nonempty, which is what
`_get_encryption_key` requires), and for any cipher satisfying the
Fernet round-trip guarantee, `store_credentials creds` raises nothing
and a subsequent `load_credentials` in the resulting state returns a
`CredentialSet` equal to `creds`. -/
theorem c1_store_load_roundtrip (ae : AE) (hc : AE.Correct ae) (s : VaultState)
    (k : String) (hk : s.keyringKey = some k) (hne : k ≠ "") (creds : Creds) :
    (store_credentials ae s creds).2 = none ∧
    load_credentials ae (store_credentials ae s creds).1 = Except.ok creds := by
  rw [store_credentials_eq ae s k hk hne creds]
  exact ⟨rfl, load_credentials_ok ae hc
    { s with configFile := some (ae.encrypt k (dumps creds)) } k hk hne creds rfl⟩

theorem c1_store_load_roundtrip_witness :
    AE.Correct toyAE ∧ ("kY" : String) ≠ "" ∧
    ((store_credentials toyAE ⟨none, none, some "kY"⟩ [("organization_id", "org")]).2 =
        none ∧
      load_credentials toyAE (store_credentials toyAE ⟨none, none, some "kY"⟩
        [("organization_id", "org")]).1 = Except.ok [("organization_id", "org")]) :=
  ⟨toyAE_correct, by decide,
    c1_store_load_roundtrip toyAE toyAE_correct ⟨none, none, some "kY"⟩ "kY" rfl
      (by decide) [("organization_id", "org")]⟩

/-- C2: load error taxonomy — `load_credentials` fails with
`FileNotFoundError` (VaultFileMissing) when the blob file is absent,
with `ValueError` (KeyNotFound) when the SecretStore entry is absent,
and with `InvalidToken` (DecryptionFailed) when the key/blob pair does
not authenticate (in particular for any tampered ciphertext, such as a
single flipped byte, that the authenticated cipher rejects); and it
never silently returns garbage: a successful `load` implies, for an
authentic cipher, that the blob is a genuine encryption under the stored
key of a serialization of the returned `CredentialSet`. -/
theorem c2_load_error_taxonomy (ae : AE) (s : VaultState) :
    (s.configFile = none → load_credentials ae s = Except.error PyErr.fileNotFound) ∧
    (s.configFile ≠ none → s.keyringKey = none →
      load_credentials ae s = Except.error PyErr.valueError) ∧
    (∀ c k, s.configFile = some c → s.keyringKey = some k → k ≠ "" →
      ae.decrypt k c = none → load_credentials ae s = Except.error PyErr.invalidToken) ∧
    (AE.Authentic ae → ∀ creds, load_credentials ae s = Except.ok creds →
      ∃ k plain, s.keyringKey = some k ∧ s.configFile = some (ae.encrypt k plain) ∧
        loads plain = some creds) := by
  refine ⟨fun h => load_error_of_configFile_none ae s h, ?_, ?_, ?_⟩
  · intro h1 h2
    rcases hcf : s.configFile with _ | c
    · exact absurd hcf h1
    · simp [load_credentials, hcf, get_encryption_key, h2]
  · intro c k hcf hk hne hdec
    simp [load_credentials, hcf, get_encryption_key_ok s k hk hne, hdec]
  · intro hA creds h
    obtain ⟨k, c, plain, hk, hcf, hd, hl⟩ := load_credentials_ok_inv ae s creds h
    exact ⟨k, plain, hk, by rw [hcf, hA k c plain hd], hl⟩

theorem c2_load_error_taxonomy_witness :
    load_credentials toyAE ⟨none, none, some "kY"⟩ = Except.error PyErr.fileNotFound ∧
    load_credentials toyAE ⟨some [0], none, none⟩ = Except.error PyErr.valueError ∧
    load_credentials toyAE ⟨some [1, 2, 3], none, some "kY"⟩ =
      Except.error PyErr.invalidToken ∧
    (∃ k plain, (some "kY" : Option String) = some k ∧
      (some (toyEncrypt "kY" (dumps [("a", "b")])) : Option Bytes) =
        some (toyAE.encrypt k plain) ∧
      loads plain = some [("a", "b")]) :=
  ⟨(c2_load_error_taxonomy toyAE ⟨none, none, some "kY"⟩).1 rfl,
   (c2_load_error_taxonomy toyAE ⟨some [0], none, none⟩).2.1 (by decide) rfl,
   (c2_load_error_taxonomy toyAE ⟨some [1, 2, 3], none, some "kY"⟩).2.2.1 [1, 2, 3] "kY"
     rfl rfl (by decide) (by rfl),
   (c2_load_error_taxonomy toyAE
       ⟨some (toyEncrypt "kY" (dumps [("a", "b")])), none, some "kY"⟩).2.2.2
     toyAE_authentic [("a", "b")] (by rfl)⟩

/-- C3: Update merge semantics — from a state whose vault file holds the
encryption of `current` under the stored key, `update_credentials new`
raises nothing and the next `load_credentials` returns
`dictUpdate current new`, which is the key-wise merge of `new` over
`current`: keys bound in `new` take the value from `new`, keys absent
from `new` keep the value from `current`. -/
theorem c3_update_merge (ae : AE) (hc : AE.Correct ae) (s : VaultState) (k : String)
    (hk : s.keyringKey = some k) (hne : k ≠ "") (current newCreds : Creds)
    (hcf : s.configFile = some (ae.encrypt k (dumps current)))
    (hn : (newCreds.map Prod.fst).Nodup) :
    (update_credentials ae s newCreds).2 = none ∧
    load_credentials ae (update_credentials ae s newCreds).1 =
      Except.ok (dictUpdate current newCreds) ∧
    (∀ q v, dictGet newCreds q = some v →
      dictGet (dictUpdate current newCreds) q = some v) ∧
    (∀ q, dictGet newCreds q = none →
      dictGet (dictUpdate current newCreds) q = dictGet current q) := by
  have hload := load_credentials_ok ae hc s k hk hne current hcf
  have hupd : update_credentials ae s newCreds =
      store_credentials ae s (dictUpdate current newCreds) := by
    unfold update_credentials
    rw [hload]
  rw [hupd, store_credentials_eq ae s k hk hne]
  exact ⟨rfl, load_credentials_ok ae hc
    { s with configFile := some (ae.encrypt k (dumps (dictUpdate current newCreds))) }
    k hk hne (dictUpdate current newCreds) rfl,
    fun q v h => dictGet_update_some newCreds current q v hn h,
    fun q h => dictGet_update_none newCreds current q h⟩

theorem c3_update_merge_witness :
    (update_credentials toyAE
      ⟨some (toyEncrypt "kY" (dumps [("a", "1"), ("b", "2")])), none, some "kY"⟩
      [("b", "3"), ("c", "4")]).2 = none ∧
    load_credentials toyAE (update_credentials toyAE
      ⟨some (toyEncrypt "kY" (dumps [("a", "1"), ("b", "2")])), none, some "kY"⟩
      [("b", "3"), ("c", "4")]).1 =
      Except.ok [("a", "1"), ("b", "3"), ("c", "4")] :=
  ⟨(c3_update_merge toyAE toyAE_correct
      ⟨some (toyEncrypt "kY" (dumps [("a", "1"), ("b", "2")])), none, some "kY"⟩ "kY"
      rfl (by decide) [("a", "1"), ("b", "2")] [("b", "3"), ("c", "4")] rfl
      (by decide)).1,
   (c3_update_merge toyAE toyAE_correct
      ⟨some (toyEncrypt "kY" (dumps [("a", "1"), ("b", "2")])), none, some "kY"⟩ "kY"
      rfl (by decide) [("a", "1"), ("b", "2")] [("b", "3"), ("c", "4")] rfl
      (by decide)).2.1⟩

/-- C4 counterexample: the claim that a second consecutive
`delete_credentials` produces no error is false — starting from a fully
populated state, the second call raises `PasswordDeleteError`, because
`keyring.delete_password` raises when the entry is already absent and
the `except` block re-raises after logging. -/
theorem c4_counterexample :
    (delete_credentials
      (delete_credentials ⟨some [0], some [1], some "kY"⟩).1).2 =
      some PyErr.passwordDeleteError := by
  rfl

/-- C4 (amended): the file removals in `delete_credentials` are
idempotent (absent files are skipped, and both files are always gone
afterwards, so a subsequent `load_credentials` fails with
`FileNotFoundError`/VaultFileMissing), and a first call with the
SecretStore entry present succeeds; but when the SecretStore entry is
absent the call removes the files and then raises
`PasswordDeleteError` — in particular the second of two consecutive
calls always raises it. -/
theorem c4_delete_amended (ae : AE) (s : VaultState) :
    ((delete_credentials s).1.configFile = none ∧
      (delete_credentials s).1.saltFile = none) ∧
    (∀ k, s.keyringKey = some k →
      delete_credentials s = (⟨none, none, none⟩, none)) ∧
    (s.keyringKey = none →
      delete_credentials s = (⟨none, none, none⟩, some PyErr.passwordDeleteError)) ∧
    load_credentials ae (delete_credentials s).1 = Except.error PyErr.fileNotFound ∧
    (delete_credentials (delete_credentials s).1).2 = some PyErr.passwordDeleteError := by
  obtain ⟨cf, sf, kk⟩ := s
  rcases kk with _ | k <;>
    simp [delete_credentials, load_credentials]

theorem c4_delete_amended_witness :
    delete_credentials ⟨some [0], some [1], some "kY"⟩ = (⟨none, none, none⟩, none) ∧
    delete_credentials ⟨none, none, none⟩ =
      (⟨none, none, none⟩, some PyErr.passwordDeleteError) :=
  ⟨(c4_delete_amended toyAE ⟨some [0], some [1], some "kY"⟩).2.1 "kY" rfl,
   (c4_delete_amended toyAE ⟨none, none, none⟩).2.2.1 rfl⟩

/-- C5: get-or-bootstrap — when `load_credentials` fails with
`FileNotFoundError` (the vault file is absent) and the interactive
inputs are well formed (matching passphrase confirmation; the derived
key is nonempty, as a base64-encoded 32-byte key always is),
`get_zoho_credentials` runs the setup flow (initialize + store) and
returns exactly the `CredentialSet` that was entered, which the
resulting state then loads back; any other `load_credentials` error
propagates unchanged with no state modification and no re-setup. -/
theorem c5_get_or_bootstrap (pb : KDF) (ae : AE) (hc : AE.Correct ae) (s : VaultState)
    (inp : SetupInputs) (hmiss : s.configFile = none)
    (hmatch : inp.password = inp.confirm)
    (hkey : b64encode (pb 32 inp.freshSalt 480000 inp.password) ≠ "") :
    (get_zoho_credentials pb ae s inp).2 = Except.ok (some (setupCreds inp)) ∧
    (get_zoho_credentials pb ae s inp).1 = bootstrapState pb ae inp ∧
    load_credentials ae (get_zoho_credentials pb ae s inp).1 =
      Except.ok (setupCreds inp) ∧
    (∀ (s2 : VaultState) (e : PyErr), e ≠ PyErr.fileNotFound →
      load_credentials ae s2 = Except.error e →
      get_zoho_credentials pb ae s2 inp = (s2, Except.error e)) := by
  have hb := get_zoho_bootstrap pb ae s inp hmiss hmatch hkey
  rw [hb]
  exact ⟨rfl, rfl, load_bootstrapState pb ae hc inp hkey,
    fun s2 e he h => get_zoho_propagates pb ae s2 inp e he h⟩

theorem c5_get_or_bootstrap_witness :
    (get_zoho_credentials toyKdf toyAE ⟨none, none, some "old"⟩ inpW).2 =
      Except.ok (some (setupCreds inpW)) ∧
    get_zoho_credentials toyKdf toyAE ⟨some [1, 2, 3], none, some "kY"⟩ inpW =
      (⟨some [1, 2, 3], none, some "kY"⟩, Except.error PyErr.invalidToken) :=
  ⟨(c5_get_or_bootstrap toyKdf toyAE toyAE_correct ⟨none, none, some "old"⟩ inpW rfl rfl
      (by decide)).1,
   (c5_get_or_bootstrap toyKdf toyAE toyAE_correct ⟨none, none, some "old"⟩ inpW rfl rfl
      (by decide)).2.2.2 ⟨some [1, 2, 3], none, some "kY"⟩ PyErr.invalidToken
     (by decide) (by rfl)⟩

/-- C6 counterexample: the claim that on `VaultFileMissing` an update
degrades to a store and succeeds is false — on a fresh state (no vault
file and no SecretStore entry) `load_credentials` fails with
`FileNotFoundError`, `update_credentials` degrades to
`store_credentials`, and that store raises `ValueError` (KeyNotFound)
rather than succeeding. -/
theorem c6_counterexample :
    (update_credentials toyAE ⟨none, none, none⟩ [("client_id", "x")]).2 =
      some PyErr.valueError := by
  rfl

/-- C6 (amended): if `load_credentials` inside `update_credentials`
fails with `FileNotFoundError` (VaultFileMissing), the update degrades
to `store_credentials newCreds` exactly, which succeeds precisely when
the store succeeds (and in particular fails with `ValueError`/KeyNotFound
when the SecretStore entry is absent); for every other `load` error the
update propagates that error and writes nothing (the state is
returned unchanged). -/
theorem c6_update_degrade_amended (ae : AE) (s : VaultState) (newCreds : Creds) :
    (s.configFile = none →
      update_credentials ae s newCreds = store_credentials ae s newCreds) ∧
    (s.configFile = none → s.keyringKey = none →
      update_credentials ae s newCreds = (s, some PyErr.valueError)) ∧
    (∀ e, e ≠ PyErr.fileNotFound → load_credentials ae s = Except.error e →
      update_credentials ae s newCreds = (s, some e)) := by
  refine ⟨?_, ?_, ?_⟩
  · intro h
    unfold update_credentials
    rw [load_error_of_configFile_none ae s h]
  · intro h hkk
    unfold update_credentials
    rw [load_error_of_configFile_none ae s h]
    show store_credentials ae s newCreds = _
    simp [store_credentials, get_encryption_key, hkk]
  · intro e he h
    unfold update_credentials
    rw [h]
    cases e
    · exact absurd rfl he
    all_goals rfl

theorem c6_update_degrade_amended_witness :
    update_credentials toyAE ⟨none, none, some "kY"⟩ [("a", "1")] =
      store_credentials toyAE ⟨none, none, some "kY"⟩ [("a", "1")] ∧
    update_credentials toyAE ⟨none, none, none⟩ [("a", "1")] =
      (⟨none, none, none⟩, some PyErr.valueError) ∧
    update_credentials toyAE ⟨some [1, 2, 3], none, some "kY"⟩ [("a", "1")] =
      (⟨some [1, 2, 3], none, some "kY"⟩, some PyErr.invalidToken) :=
  ⟨(c6_update_degrade_amended toyAE ⟨none, none, some "kY"⟩ [("a", "1")]).1 rfl,
   (c6_update_degrade_amended toyAE ⟨none, none, none⟩ [("a", "1")]).2.1 rfl rfl,
   (c6_update_degrade_amended toyAE ⟨some [1, 2, 3], none, some "kY"⟩ [("a", "1")]).2.2
     PyErr.invalidToken (by decide) (by rfl)⟩

/-- C7: Key derivation is a pure deterministic function of (passphrase,
salt) — with a given 16-byte salt, `_generate_key` is independent of the
fresh-randomness input (the only hidden state of the function), always
returns the same result, and that result is the base64 encoding of the
32-byte PBKDF2-HMAC-SHA256 output at 480000 iterations, paired with the
salt itself. -/
theorem c7_generate_key_deterministic (pb : KDF) (password : String) (salt : Bytes)
    (hsalt : salt.length = 16) (r1 r2 : Bytes) :
    generate_key pb password (some salt) r1 = generate_key pb password (some salt) r2 ∧
    generate_key pb password (some salt) r1 =
      (b64encode (pb 32 salt 480000 password), salt) :=
  ⟨rfl, rfl⟩

theorem c7_generate_key_deterministic_witness :
    (List.replicate 16 0 : Bytes).length = 16 ∧
    (generate_key toyKdf "pw" (some (List.replicate 16 0)) [1] =
        generate_key toyKdf "pw" (some (List.replicate 16 0)) [2] ∧
      generate_key toyKdf "pw" (some (List.replicate 16 0)) [1] =
        (b64encode (toyKdf 32 (List.replicate 16 0) 480000 "pw"),
          List.replicate 16 0)) :=
  ⟨by decide,
    c7_generate_key_deterministic toyKdf "pw" (List.replicate 16 0) (by decide) [1] [2]⟩

/-- C8: Re-running initialize while already initialized — when the
keyring already holds a key, `initialize_credentials` overwrites the
salt file and the keyring entry with the freshly derived values of the
latest call, leaves the encrypted blob bytes unchanged, and hence, for
any blob the authenticated cipher rejects under the new key, the next
`load_credentials` fails with `InvalidToken` (DecryptionFailed). -/
theorem c8_reinitialize_overwrites (pb : KDF) (ae : AE) (s : VaultState)
    (password : String) (freshSalt : Bytes) (halready : s.keyringKey ≠ none) :
    (initialize_credentials pb s password freshSalt).saltFile = some freshSalt ∧
    (initialize_credentials pb s password freshSalt).keyringKey =
      some (b64encode (pb 32 freshSalt 480000 password)) ∧
    (initialize_credentials pb s password freshSalt).configFile = s.configFile ∧
    (∀ c, s.configFile = some c →
      b64encode (pb 32 freshSalt 480000 password) ≠ "" →
      ae.decrypt (b64encode (pb 32 freshSalt 480000 password)) c = none →
      load_credentials ae (initialize_credentials pb s password freshSalt) =
        Except.error PyErr.invalidToken) := by
  refine ⟨rfl, rfl, rfl, ?_⟩
  intro c hcf hne hdec
  simp [load_credentials, initialize_credentials, generate_key, hcf,
    get_encryption_key, hne, hdec]

theorem c8_reinitialize_overwrites_witness :
    (initialize_credentials toyKdf ⟨some [1], some [2], some "old"⟩ "pw" [7]).saltFile =
      some [7] ∧
    (initialize_credentials toyKdf ⟨some [1], some [2], some "old"⟩ "pw" [7]).keyringKey =
      some (b64encode (toyKdf 32 [7] 480000 "pw")) ∧
    (initialize_credentials toyKdf ⟨some [1], some [2], some "old"⟩ "pw" [7]).configFile =
      some [1] ∧
    load_credentials toyAE
      (initialize_credentials toyKdf ⟨some [1], some [2], some "old"⟩ "pw" [7]) =
      Except.error PyErr.invalidToken :=
  have h := c8_reinitialize_overwrites toyKdf toyAE ⟨some [1], some [2], some "old"⟩
    "pw" [7] (by decide)
  ⟨h.1, h.2.1, h.2.2.1, h.2.2.2 [1] rfl (by decide) (by decide)⟩

/-- C9: Implicit check ordering in load — `load_credentials` tests the
vault file's existence before consulting the SecretStore, so whenever
the config file is absent it fails with `FileNotFoundError`
(VaultFileMissing) and never with `ValueError` (KeyNotFound), whatever
the keyring holds — including a completely fresh installation where the
key is also absent; this is the ordering that lets
`get_zoho_credentials` bootstrap, since its setup branch is triggered
exactly by `FileNotFoundError`. -/
theorem c9_check_ordering (ae : AE) (s : VaultState) (h : s.configFile = none) :
    load_credentials ae s = Except.error PyErr.fileNotFound ∧
    load_credentials ae s ≠ Except.error PyErr.valueError ∧
    (∀ (pb : KDF) (inp : SetupInputs), inp.password = inp.confirm →
      b64encode (pb 32 inp.freshSalt 480000 inp.password) ≠ "" →
      (get_zoho_credentials pb ae s inp).2 = Except.ok (some (setupCreds inp))) := by
  refine ⟨load_error_of_configFile_none ae s h, ?_, ?_⟩
  · rw [load_error_of_configFile_none ae s h]
    simp
  · intro pb inp hm hk
    rw [get_zoho_bootstrap pb ae s inp h hm hk]

theorem c9_check_ordering_witness :
    load_credentials toyAE ⟨none, none, none⟩ = Except.error PyErr.fileNotFound ∧
    (get_zoho_credentials toyKdf toyAE ⟨none, none, none⟩ inpW).2 =
      Except.ok (some (setupCreds inpW)) :=
  ⟨(c9_check_ordering toyAE ⟨none, none, none⟩ rfl).1,
   (c9_check_ordering toyAE ⟨none, none, none⟩ rfl).2.2 toyKdf inpW rfl (by decide)⟩

/-- C10: Passphrase-mismatch edge case — when the two passphrase prompts
disagree, `setup_credentials` returns normally with no `CredentialSet`
(Python `None`) instead of raising, and modifies no state (no salt file,
no SecretStore entry, no vault file is written); consequently
`get_zoho_credentials` on a state without a vault file returns
successfully with no `CredentialSet` at all. -/
theorem c10_passphrase_mismatch (pb : KDF) (ae : AE) (s : VaultState)
    (inp : SetupInputs) (hne : inp.password ≠ inp.confirm) :
    setup_credentials pb ae s inp = (s, none, none) ∧
    (s.configFile = none →
      get_zoho_credentials pb ae s inp = (s, Except.ok none)) := by
  have hs : setup_credentials pb ae s inp = (s, none, none) := by
    unfold setup_credentials
    rw [if_pos hne]
  refine ⟨hs, fun h => ?_⟩
  unfold get_zoho_credentials
  rw [load_error_of_configFile_none ae s h, hs]

theorem c10_passphrase_mismatch_witness :
    setup_credentials toyKdf toyAE ⟨none, none, none⟩ inpBad =
      (⟨none, none, none⟩, none, none) ∧
    get_zoho_credentials toyKdf toyAE ⟨none, none, none⟩ inpBad =
      (⟨none, none, none⟩, Except.ok none) :=
  ⟨(c10_passphrase_mismatch toyKdf toyAE ⟨none, none, none⟩ inpBad (by decide)).1,
   (c10_passphrase_mismatch toyKdf toyAE ⟨none, none, none⟩ inpBad (by decide)).2 rfl⟩

end ZohoVault
